import Mathlib

/-!
Verification of rest_framework_forms/serializers.py, a Django REST framework
mixin (FormSerializerMixin) that derives serializer fields from a Django form
and delegates validation to the form.

The embedding models Python values with a small universe (Val), dictionaries as
ordered association lists with Python dict semantics (first-match lookup,
replace-in-place-or-append assignment), and fallible Python code with Except:
an Except.error models a raised exception (NameError, AttributeError).

Two unbound names appear in the source and are modelled explicitly:
line 13 references iserializers (not bound in the module scope, where only
forms and serializers are imported), and get_field references the unqualified
name WritableField (never imported). Name resolution of the class-body mapping
table is modelled by buildFormFieldMapping; the runtime-level definitions that
other methods need use the evident referents (the serializers module), with
the resolution failures captured by the corresponding theorems.
-/

/-- A small universe of Python attribute values: None, booleans, integers and
strings.  Enough to represent the attribute metadata the mixin copies. -/
inductive Val where
  | vnone
  | vbool (b : Bool)
  | vint (n : Int)
  | vstr (s : String)
  deriving DecidableEq, Repr

/-- A Django widget, as far as the mixin inspects it: its attrs dictionary
(the code reads widget.attrs.get with key read_only). -/
structure Widget where
  attrs : List (String × Val)
  deriving DecidableEq, Repr

/-- A value stored in the keyword-argument dictionary handed to a serializer
field constructor: either a plain value or a whole widget object (the widget
is copied wholesale by get_field). -/
inductive KwVal where
  | val (v : Val)
  | wid (w : Widget)
  deriving DecidableEq, Repr

/-- The exact class of a form field.  The thirteen classes keyed by the
mapping table are listed by name; any other class (custom subclasses,
forms.ChoiceField, ...) is represented by Other with its class name.
Python dict lookup on a class is by class identity, so a subclass of
forms.CharField is Other, never CharField. -/
inductive FormFieldClass where
  | FloatField | IntegerField | DateTimeField | DateField | TimeField
  | DecimalField | EmailField | CharField | URLField | SlugField
  | BooleanField | FileField | ImageField
  | Other (name : String)
  deriving DecidableEq, Repr

/-- The class of a constructed serializer field. -/
inductive SerializerFieldClass where
  | FloatField | IntegerField | DateTimeField | DateField | TimeField
  | DecimalField | EmailField | CharField | URLField | SlugField
  | BooleanField | FileField | ImageField
  | ChoiceField | WritableField
  deriving DecidableEq, Repr

/-- A Django form field instance, carrying exactly the attributes the mixin
reads.  choices is an Option: some c models hasattr(form_field, choices)
returning true with value c.  The per-class extras (max_length, max_digits,
decimal_places, min_value) default to None in Django, hence plain Val. -/
structure FormField where
  cls : FormFieldClass
  required : Bool
  widget : Widget
  initial : Val
  label : Val
  help_text : Val
  choices : Option Val
  max_length : Val
  max_digits : Val
  decimal_places : Val
  min_value : Val
  deriving DecidableEq, Repr

/-- A constructed serializer field: its class together with the keyword
arguments it was constructed with, in the order the code inserted them. -/
structure SerializerField where
  cls : SerializerFieldClass
  kwargs : List (String × KwVal)
  deriving DecidableEq, Repr

/-- Python dict lookup d[k] as used through dict.get: first matching key. -/
def pyGet [DecidableEq κ] (d : List (κ × α)) (k : κ) : Option α :=
  match d with
  | [] => none
  | kv :: rest => if kv.1 = k then some kv.2 else pyGet rest k

/-- Python dict assignment d[k] = v: replace the value at an existing key in
place, otherwise append the new binding at the end. -/
def pySet [DecidableEq κ] (d : List (κ × α)) (k : κ) (v : α) : List (κ × α) :=
  match d with
  | [] => [(k, v)]
  | kv :: rest => if kv.1 = k then (k, v) :: rest else kv :: pySet rest k v

/-- Python dict.update(m): assign every binding of m, in order. -/
def pyUpdate [DecidableEq κ] (d m : List (κ × α)) : List (κ × α) :=
  m.foldl (fun acc kv => pySet acc kv.1 kv.2) d

/-- The names bound at module level in serializers.py: the two import
statements bind forms and serializers, and nothing else is bound before the
class body executes. -/
def moduleNames : List String := ["forms", "serializers"]

/-- The class-body mapping table exactly as written in the source, lines
11-25: each entry is the form-field class together with the namespace name
and attribute name of its right-hand side as they appear in the text.  Line
13 writes iserializers, not serializers. -/
def form_field_mapping_entries :
    List (FormFieldClass × String × String) :=
  [(.FloatField, "serializers", "FloatField"),
   (.IntegerField, "iserializers", "IntegerField"),
   (.DateTimeField, "serializers", "DateTimeField"),
   (.DateField, "serializers", "DateField"),
   (.TimeField, "serializers", "TimeField"),
   (.DecimalField, "serializers", "DecimalField"),
   (.EmailField, "serializers", "EmailField"),
   (.CharField, "serializers", "CharField"),
   (.URLField, "serializers", "URLField"),
   (.SlugField, "serializers", "SlugField"),
   (.BooleanField, "serializers", "BooleanField"),
   (.FileField, "serializers", "FileField"),
   (.ImageField, "serializers", "ImageField")]

/-- The serializer-field class exported by the serializers module under a
given attribute name, when there is one. -/
def serializerClassOfName (attr : String) : Option SerializerFieldClass :=
  if attr = "FloatField" then some .FloatField
  else if attr = "IntegerField" then some .IntegerField
  else if attr = "DateTimeField" then some .DateTimeField
  else if attr = "DateField" then some .DateField
  else if attr = "TimeField" then some .TimeField
  else if attr = "DecimalField" then some .DecimalField
  else if attr = "EmailField" then some .EmailField
  else if attr = "CharField" then some .CharField
  else if attr = "URLField" then some .URLField
  else if attr = "SlugField" then some .SlugField
  else if attr = "BooleanField" then some .BooleanField
  else if attr = "FileField" then some .FileField
  else if attr = "ImageField" then some .ImageField
  else if attr = "ChoiceField" then some .ChoiceField
  else if attr = "WritableField" then some .WritableField
  else none

/-- Evaluation of the class-body dict literal at class-definition time: each
right-hand side expression ns.attr is evaluated in turn; an unbound namespace
name raises NameError, an unknown attribute raises AttributeError. -/
def buildFormFieldMapping :
    Except String (List (FormFieldClass × SerializerFieldClass)) :=
  form_field_mapping_entries.mapM (fun e =>
    if moduleNames.contains e.2.1 then
      match serializerClassOfName e.2.2 with
      | some c => Except.ok (e.1, c)
      | none => Except.error ("AttributeError: " ++ e.2.2)
    else
      Except.error ("NameError: name " ++ e.2.1 ++ " is not defined"))

/-- The mapping table at the value level, keyed by form-field class.  The
right-hand side of line 13 is taken to denote serializers.IntegerField, the
only evident referent of the token iserializers; that this token does not in
fact resolve is captured by buildFormFieldMapping and the theorem on it. -/
def form_field_mapping :
    List (FormFieldClass × SerializerFieldClass) :=
  [(.FloatField, .FloatField),
   (.IntegerField, .IntegerField),
   (.DateTimeField, .DateTimeField),
   (.DateField, .DateField),
   (.TimeField, .TimeField),
   (.DecimalField, .DecimalField),
   (.EmailField, .EmailField),
   (.CharField, .CharField),
   (.URLField, .URLField),
   (.SlugField, .SlugField),
   (.BooleanField, .BooleanField),
   (.FileField, .FileField),
   (.ImageField, .ImageField)]

/-- Lines 58-66 of get_field: the keyword arguments common to every path,
in insertion order. -/
def base_kwargs (f : FormField) : List (String × KwVal) :=
  [("required", .val (Val.vbool f.required)),
   ("read_only", .val ((pyGet f.widget.attrs "read_only").getD (Val.vbool false))),
   ("default", .val f.initial),
   ("widget", .wid f.widget),
   ("label", .val f.label),
   ("help_text", .val f.help_text)]

/-- The attribute_dict local of get_field: per-class extra attribute names,
looked up by exact class with default []. -/
def attribute_dict (c : FormFieldClass) : List String :=
  match c with
  | .CharField => ["max_length"]
  | .DecimalField => ["max_digits", "decimal_places"]
  | .EmailField => ["max_length"]
  | .FileField => ["max_length"]
  | .ImageField => ["max_length"]
  | .IntegerField => ["min_value"]
  | .SlugField => ["max_length"]
  | .URLField => ["max_length"]
  | _ => []

/-- getattr(form_field, attribute) for the attribute names appearing in
attribute_dict. -/
def getattrF (f : FormField) (a : String) : Val :=
  if a = "max_length" then f.max_length
  else if a = "max_digits" then f.max_digits
  else if a = "decimal_places" then f.decimal_places
  else if a = "min_value" then f.min_value
  else Val.vnone

/-- The full keyword-argument dictionary assembled by get_field on the
non-choices path: the common attributes followed by the per-class extras. -/
def get_field_kwargs (f : FormField) : List (String × KwVal) :=
  (attribute_dict f.cls).foldl
    (fun kws a => pyUpdate kws [(a, KwVal.val (getattrF f a))])
    (base_kwargs f)

/-- FormSerializerMixin.get_field.  On a field with a choices attribute the
code returns serializers.ChoiceField with the common kwargs plus choices.
Otherwise it assembles the per-class kwargs and evaluates
form_field_mapping.get(cls, WritableField); Python evaluates the default
argument first, and the unqualified name WritableField is not bound in the
module scope (only forms and serializers are imported), so the call raises
NameError before the dict is consulted. -/
def get_field (f : FormField) : Except String SerializerField :=
  match f.choices with
  | some c =>
      Except.ok ⟨.ChoiceField, base_kwargs f ++ [("choices", KwVal.val c)]⟩
  | none =>
      let _kwargs := get_field_kwargs f
      Except.error "NameError: name WritableField is not defined"

/-- A Django form object as the mixin observes it: the constructor arguments
it was built from, its fields dictionary, its computed errors dictionary and
its cleaned_data.  One type serves for bound and unbound forms (data and
files are None on an unbound form). -/
structure FormObj where
  data : Option Val
  files : Option Val
  inst : Val
  fields : List (String × FormField)
  errors : List (String × List Val)
  cleaned_data : Val
  deriving DecidableEq, Repr

/-- The factory a form class is: given data, files and the instance keyword,
it yields a form object.  The mixin treats form_class as opaque, so the
embedding passes it as a parameter. -/
def FormClass : Type := Option Val → Option Val → Val → FormObj

/-- The serializer instance state the mixin methods touch.  object is the
serializer's current object attribute (none models the attribute being
absent, which getattr with default None conflates with None); bound_form is
none until from_native assigns it (an attribute access then raises
AttributeError); err is the _errors accumulation dictionary. -/
structure MixinState where
  object : Option Val
  bound_form : Option FormObj
  err : List (String × List Val)
  deriving DecidableEq, Repr

/-- getattr(self, object, None): the attribute value, or None when absent. -/
def getattr_object (s : MixinState) : Val :=
  (s.object).getD Val.vnone

/-- FormSerializerMixin.get_bound_form: kwargs.setdefault fills the instance
keyword with getattr(self, object, None) when the caller did not pass one,
then form_class(data, files, **kwargs) is called. -/
def get_bound_form (fc : FormClass) (s : MixinState)
    (data files : Val) (kw_inst : Option Val) : FormObj :=
  fc (some data) (some files) (kw_inst.getD (getattr_object s))

/-- FormSerializerMixin.get_form: same instance defaulting, but the form
class is called with no positional arguments, hence unbound. -/
def get_form (fc : FormClass) (s : MixinState)
    (kw_inst : Option Val) : FormObj :=
  fc none none (kw_inst.getD (getattr_object s))

/-- FormSerializerMixin.from_native: builds the bound form, stores it on
self, then returns whatever the superclass from_native returns; the
superclass call (which may itself change serializer state) is passed in as
superFN. -/
def from_native (fc : FormClass)
    (superFN : MixinState → Val → Val → MixinState × Val)
    (s : MixinState) (data files : Val) : MixinState × Val :=
  let s1 := { s with bound_form := some (get_bound_form fc s data files none) }
  superFN s1 data files

/-- self._errors.setdefault(key, []).extend(error_list): every entry of the
dictionary at that key is extended in place; a missing key is inserted at
the end with the new list.  -/
def setdefault_extend (d : List (String × List Val)) (k : String)
    (l : List Val) : List (String × List Val) :=
  if d.any (fun kv => kv.1 = k) then
    d.map (fun kv => if kv.1 = k then (kv.1, kv.2 ++ l) else kv)
  else d ++ [(k, l)]

/-- The loop body of perform_validation folded over the bound form's errors
dictionary. -/
def mergeErrors (formErrors : List (String × List Val))
    (e : List (String × List Val)) : List (String × List Val) :=
  formErrors.foldl (fun acc kv => setdefault_extend acc kv.1 kv.2) e

/-- FormSerializerMixin.perform_validation: reads self.bound_form (an
AttributeError when from_native never assigned it), folds the bound form's
errors into self._errors, then delegates to the superclass, passed in as
superPV acting on the already-updated state. -/
def perform_validation
    (superPV : MixinState → Val → MixinState × Val)
    (s : MixinState) (attrs : Val) : Except String (MixinState × Val) :=
  match s.bound_form with
  | none =>
      Except.error "AttributeError: FormSerializer object has no attribute bound_form"
  | some bf =>
      Except.ok (superPV { s with err := mergeErrors bf.errors s.err } attrs)

/-- FormSerializerMixin.restore_object: returns self.bound_form.cleaned_data,
ignoring attrs and the instance argument; accessing bound_form before
from_native ran raises AttributeError. -/
def restore_object (s : MixinState) (attrs inst : Val) : Except String Val :=
  match s.bound_form with
  | none =>
      Except.error "AttributeError: FormSerializer object has no attribute bound_form"
  | some bf => Except.ok bf.cleaned_data

/-- FormSerializerMixin.get_default_fields: starts from the superclass's
default fields, then for each entry of get_form().fields computes a
serializer field and assigns it under the same key (a constructed field
object is always truthy, so the if field: guard never skips); a NameError
raised by get_field propagates. -/
def get_default_fields (fc : FormClass) (s : MixinState)
    (superFields : List (String × SerializerField)) :
    Except String (List (String × SerializerField)) :=
  (get_form fc s none).fields.foldlM
    (fun ret kv => do
      let field ← get_field kv.2
      pure (pySet ret kv.1 field))
    superFields

/-- The class-level mutable state shared by every instance of the mixin
class: the one form_field_mapping dictionary object stored on the class. -/
structure World where
  classMapping : List (FormFieldClass × SerializerFieldClass)
  deriving DecidableEq, Repr

/-- FormSerializerMixin.__init__ with a form_field_mapping keyword argument:
self.form_field_mapping names the class-level dictionary (the instance has no
own binding), and .update mutates that shared object in place.  none models
the keyword being absent, in which case kwargs.pop returns {} and the update
is a no-op on content. -/
def mixin_init (w : World)
    (ffm_kwarg : Option (List (FormFieldClass × SerializerFieldClass))) :
    World :=
  { w with classMapping := pyUpdate w.classMapping (ffm_kwarg.getD []) }

/-- The form_field_mapping an instance sees: __init__ never creates an
instance-level binding (it only mutates), so attribute lookup on any
instance, existing or future, falls through to the class dictionary. -/
def instance_form_field_mapping (w : World) :
    List (FormFieldClass × SerializerFieldClass) :=
  w.classMapping

/-- Names of the form-field classes, for stating the same-name property of
the mapping table. -/
def ffcName (c : FormFieldClass) : String :=
  match c with
  | .FloatField => "FloatField"
  | .IntegerField => "IntegerField"
  | .DateTimeField => "DateTimeField"
  | .DateField => "DateField"
  | .TimeField => "TimeField"
  | .DecimalField => "DecimalField"
  | .EmailField => "EmailField"
  | .CharField => "CharField"
  | .URLField => "URLField"
  | .SlugField => "SlugField"
  | .BooleanField => "BooleanField"
  | .FileField => "FileField"
  | .ImageField => "ImageField"
  | .Other n => n

/-- Names of the serializer-field classes. -/
def sfcName (c : SerializerFieldClass) : String :=
  match c with
  | .FloatField => "FloatField"
  | .IntegerField => "IntegerField"
  | .DateTimeField => "DateTimeField"
  | .DateField => "DateField"
  | .TimeField => "TimeField"
  | .DecimalField => "DecimalField"
  | .EmailField => "EmailField"
  | .CharField => "CharField"
  | .URLField => "URLField"
  | .SlugField => "SlugField"
  | .BooleanField => "BooleanField"
  | .FileField => "FileField"
  | .ImageField => "ImageField"
  | .ChoiceField => "ChoiceField"
  | .WritableField => "WritableField"

section DictLemmas

variable {κ : Type} {α : Type} [DecidableEq κ]

theorem pyGet_pySet_same (d : List (κ × α)) (k : κ) (v : α) :
    pyGet (pySet d k v) k = some v := by
  induction d with
  | nil => simp [pySet, pyGet]
  | cons kv rest ih =>
    by_cases h : kv.1 = k
    · simp [pySet, pyGet, h]
    · simp [pySet, pyGet, h, ih]

theorem pyGet_pySet_other (d : List (κ × α)) (k k' : κ) (v : α)
    (h : k' ≠ k) :
    pyGet (pySet d k v) k' = pyGet d k' := by
  induction d with
  | nil => simp [pySet, pyGet, Ne.symm h]
  | cons kv rest ih =>
    by_cases h1 : kv.1 = k
    · simp [pySet, pyGet, h1, Ne.symm h]
    · simp [pySet, pyGet, h1, ih]

theorem pyGet_pyUpdate_not_mem (m : List (κ × α)) (d : List (κ × α)) (k : κ)
    (h : k ∉ m.map Prod.fst) :
    pyGet (pyUpdate d m) k = pyGet d k := by
  induction m generalizing d with
  | nil => rfl
  | cons kv rest ih =>
    simp only [List.map_cons, List.mem_cons] at h
    push_neg at h
    have step : pyUpdate d (kv :: rest) = pyUpdate (pySet d kv.1 kv.2) rest := rfl
    rw [step, ih _ h.2, pyGet_pySet_other _ _ _ _ h.1]

theorem pyGet_pyUpdate_mem (m : List (κ × α)) (d : List (κ × α)) (k : κ) (v : α)
    (hnd : (m.map Prod.fst).Nodup) (hmem : (k, v) ∈ m) :
    pyGet (pyUpdate d m) k = some v := by
  induction m generalizing d with
  | nil => cases hmem
  | cons kv rest ih =>
    simp only [List.map_cons, List.nodup_cons] at hnd
    have step : pyUpdate d (kv :: rest) = pyUpdate (pySet d kv.1 kv.2) rest := rfl
    rcases List.mem_cons.mp hmem with heq | hmem2
    · have hk : kv.1 = k := by rw [← heq]
      have hv : kv.2 = v := by rw [← heq]
      have hnotin : k ∉ rest.map Prod.fst := by rw [← hk]; exact hnd.1
      rw [step, pyGet_pyUpdate_not_mem rest _ k hnotin, hk, hv, pyGet_pySet_same]
    · rw [step]
      exact ih _ hnd.2 hmem2

theorem pyGet_append (d d2 : List (κ × α)) (k : κ) :
    pyGet (d ++ d2) k =
      match pyGet d k with
      | some v => some v
      | none => pyGet d2 k := by
  induction d with
  | nil => simp [pyGet]
  | cons kv rest ih =>
    by_cases h : kv.1 = k
    · simp [pyGet, h]
    · simp [pyGet, h, ih]

theorem pyGet_any_false (d : List (κ × α)) (k : κ)
    (h : d.any (fun kv => kv.1 = k) = false) :
    pyGet d k = none := by
  induction d with
  | nil => rfl
  | cons kv rest ih =>
    simp only [List.any_cons, Bool.or_eq_false_iff, decide_eq_false_iff_not] at h
    simp [pyGet, h.1, ih h.2]

theorem pyGet_isSome_of_any (d : List (κ × α)) (k : κ)
    (h : d.any (fun kv => kv.1 = k) = true) :
    ∃ v, pyGet d k = some v := by
  induction d with
  | nil => cases h
  | cons kv rest ih =>
    by_cases h1 : kv.1 = k
    · exact ⟨kv.2, by simp [pyGet, h1]⟩
    · have h2 : rest.any (fun kv => kv.1 = k) = true := by
        simp only [List.any_cons, Bool.or_eq_true, decide_eq_true_eq] at h
        exact h.resolve_left h1
      obtain ⟨v, hv⟩ := ih h2
      exact ⟨v, by simp [pyGet, h1, hv]⟩

end DictLemmas

section ErrorMergeLemmas

theorem pyGet_map_extend_same (d : List (String × List Val)) (k : String)
    (l : List Val) :
    pyGet (d.map (fun kv => if kv.1 = k then (kv.1, kv.2 ++ l) else kv)) k =
      (pyGet d k).map (fun old => old ++ l) := by
  induction d with
  | nil => simp [pyGet]
  | cons kv rest ih =>
    by_cases h1 : kv.1 = k
    · simp [pyGet, h1]
    · simp [pyGet, h1, ih]

theorem pyGet_map_extend_other (d : List (String × List Val)) (k k' : String)
    (l : List Val) (h : k' ≠ k) :
    pyGet (d.map (fun kv => if kv.1 = k then (kv.1, kv.2 ++ l) else kv)) k' =
      pyGet d k' := by
  induction d with
  | nil => simp [pyGet]
  | cons kv rest ih =>
    by_cases h1 : kv.1 = k
    · have h2 : ¬ kv.1 = k' := by rw [h1]; exact Ne.symm h
      simp [pyGet, h1, h2, Ne.symm h, ih]
    · by_cases h2 : kv.1 = k'
      · simp [pyGet, h, h1, h2]
      · simp [pyGet, h1, h2, ih]

theorem pyGet_setdefault_extend_same (d : List (String × List Val))
    (k : String) (l : List Val) :
    pyGet (setdefault_extend d k l) k = some ((pyGet d k).getD [] ++ l) := by
  by_cases h : d.any (fun kv => kv.1 = k) = true
  · obtain ⟨v, hv⟩ := pyGet_isSome_of_any d k h
    simp [setdefault_extend, h, pyGet_map_extend_same, hv]
  · have hf : d.any (fun kv => kv.1 = k) = false := by
      exact Bool.eq_false_iff.mpr (fun hc => h hc)
    have h0 : pyGet d k = none := pyGet_any_false d k hf
    rw [setdefault_extend, if_neg (by simp [hf]), pyGet_append, h0]
    simp [pyGet]

theorem pyGet_setdefault_extend_other (d : List (String × List Val))
    (k k' : String) (l : List Val) (h : k' ≠ k) :
    pyGet (setdefault_extend d k l) k' = pyGet d k' := by
  by_cases hc : d.any (fun kv => kv.1 = k) = true
  · simp [setdefault_extend, hc, pyGet_map_extend_other d k k' l h]
  · have hf : d.any (fun kv => kv.1 = k) = false := by
      exact Bool.eq_false_iff.mpr (fun hcc => hc hcc)
    rw [setdefault_extend, if_neg (by simp [hf]), pyGet_append]
    have h1 : pyGet [(k, l)] k' = (none : Option (List Val)) := by
      simp [pyGet, Ne.symm h]
    rw [h1]
    cases pyGet d k' <;> rfl

theorem pyGet_mergeErrors_not_mem (fe : List (String × List Val))
    (e : List (String × List Val)) (k : String)
    (h : k ∉ fe.map Prod.fst) :
    pyGet (mergeErrors fe e) k = pyGet e k := by
  induction fe generalizing e with
  | nil => rfl
  | cons kv rest ih =>
    simp only [List.map_cons, List.mem_cons] at h
    push_neg at h
    have step : mergeErrors (kv :: rest) e =
        mergeErrors rest (setdefault_extend e kv.1 kv.2) := rfl
    rw [step, ih _ h.2, pyGet_setdefault_extend_other _ _ _ _ h.1]

theorem pyGet_mergeErrors_mem (fe : List (String × List Val))
    (e : List (String × List Val)) (k : String) (l : List Val)
    (hnd : (fe.map Prod.fst).Nodup) (hmem : (k, l) ∈ fe) :
    pyGet (mergeErrors fe e) k = some ((pyGet e k).getD [] ++ l) := by
  induction fe generalizing e with
  | nil => cases hmem
  | cons kv rest ih =>
    simp only [List.map_cons, List.nodup_cons] at hnd
    have step : mergeErrors (kv :: rest) e =
        mergeErrors rest (setdefault_extend e kv.1 kv.2) := rfl
    rcases List.mem_cons.mp hmem with heq | hmem2
    · have hk : kv.1 = k := by rw [← heq]
      have hl : kv.2 = l := by rw [← heq]
      have hnotin : k ∉ rest.map Prod.fst := by rw [← hk]; exact hnd.1
      rw [step, pyGet_mergeErrors_not_mem rest _ k hnotin, hk, hl,
        pyGet_setdefault_extend_same]
    · have hkmem : k ∈ rest.map Prod.fst :=
        List.mem_map.mpr ⟨(k, l), hmem2, rfl⟩
      have hne : k ≠ kv.1 := fun hh => hnd.1 (hh ▸ hkmem)
      rw [step, ih _ hnd.2 hmem2, pyGet_setdefault_extend_other _ _ _ _ hne]

end ErrorMergeLemmas

/-! Concrete instances used by the evaluation theorems and witnesses. -/

/-- A widget whose attrs dictionary marks the field read-only. -/
def exWidget : Widget := ⟨[("read_only", Val.vbool true)]⟩

/-- A plain forms.CharField(max_length=100) with no choices attribute. -/
def exCharField : FormField :=
  { cls := .CharField, required := true, widget := exWidget,
    initial := Val.vstr "x", label := Val.vstr "Title",
    help_text := Val.vstr "h", choices := none,
    max_length := Val.vint 100, max_digits := Val.vnone,
    decimal_places := Val.vnone, min_value := Val.vnone }

/-- A plain forms.FloatField, a class that IS a key of the mapping table. -/
def exFloatField : FormField :=
  { cls := .FloatField, required := false, widget := ⟨[]⟩,
    initial := Val.vnone, label := Val.vnone, help_text := Val.vnone,
    choices := none, max_length := Val.vnone, max_digits := Val.vnone,
    decimal_places := Val.vnone, min_value := Val.vnone }

/-- A field of a class that is not a key of the mapping table and has no
choices attribute (for example a forms.ComboField instance). -/
def exCustomField : FormField :=
  { cls := .Other "ComboField", required := true, widget := ⟨[]⟩,
    initial := Val.vnone, label := Val.vnone, help_text := Val.vnone,
    choices := none, max_length := Val.vnone, max_digits := Val.vnone,
    decimal_places := Val.vnone, min_value := Val.vnone }

/-- A choices-bearing field whose exact class is forms.CharField and which
carries max_length=50: used to show the choices path ignores both the
mapping table and the per-class attribute copy. -/
def exChoicesCharField : FormField :=
  { cls := .CharField, required := true, widget := ⟨[]⟩,
    initial := Val.vnone, label := Val.vnone, help_text := Val.vnone,
    choices := some (Val.vstr "colour_choices"),
    max_length := Val.vint 50, max_digits := Val.vnone,
    decimal_places := Val.vnone, min_value := Val.vnone }

/-- A forms.ChoiceField instance (its class is not a mapping-table key). -/
def exChoiceField2 : FormField :=
  { cls := .Other "ChoiceField", required := false, widget := ⟨[]⟩,
    initial := Val.vnone, label := Val.vnone, help_text := Val.vnone,
    choices := some (Val.vstr "kind_choices"),
    max_length := Val.vnone, max_digits := Val.vnone,
    decimal_places := Val.vnone, min_value := Val.vnone }

/-- A serializer state fresh from construction: no object, no bound form. -/
def exState0 : MixinState := { object := none, bound_form := none, err := [] }

/-- A form (instance) whose only field is a plain CharField. -/
def exForm : FormObj :=
  { data := none, files := none, inst := Val.vnone,
    fields := [("title", exCharField)], errors := [],
    cleaned_data := Val.vnone }

/-- The form class producing exForm. -/
def exFormClass : FormClass := fun _ _ _ => exForm

/-- A form whose fields are all choices-bearing, so that get_field succeeds
on each of them. -/
def exChoicesForm : FormObj :=
  { data := none, files := none, inst := Val.vnone,
    fields := [("title", exChoicesCharField), ("kind", exChoiceField2)],
    errors := [], cleaned_data := Val.vnone }

/-- The form class producing exChoicesForm. -/
def exChoicesFormClass : FormClass := fun _ _ _ => exChoicesForm

/-- A serializer field standing in for one of the superclass's defaults. -/
def exDefaultField : SerializerField := ⟨.CharField, []⟩

/-- An identity-like superclass perform_validation, for witnesses. -/
def wSuperPV : MixinState → Val → MixinState × Val := fun st a => (st, a)

/-- A bound form with two error entries. -/
def wBoundForm : FormObj :=
  { data := some (Val.vstr "d"), files := some Val.vnone, inst := Val.vnone,
    fields := [],
    errors := [("title", [Val.vstr "required"]), ("age", [Val.vstr "invalid"])],
    cleaned_data := Val.vstr "cleaned" }

/-- A serializer state that already accumulated an error under title and
whose bound_form was assigned. -/
def wState : MixinState :=
  { object := none, bound_form := some wBoundForm,
    err := [("title", [Val.vstr "old"])] }

/-! The claims. -/

/-- Claim C1.  Every entry of the class-body mapping table pairs a form-field
class with the serializer-field attribute of the same name, and the runtime
table (with line 13 read as intended) maps each class to the same-named
serializer class; but constructing the table at class-definition time does
NOT succeed: evaluating the dict literal raises NameError, because line 13
references iserializers, a name not bound in the module scope. -/
theorem C1_mapping_table_construction :
    (form_field_mapping_entries.all fun e => e.2.2 = ffcName e.1) = true ∧
    (form_field_mapping.all fun kv => sfcName kv.2 = ffcName kv.1) = true ∧
    buildFormFieldMapping =
      Except.error "NameError: name iserializers is not defined" :=
  ⟨rfl, rfl, rfl⟩

/-- Claim C2.  For a field whose class is not a mapping-table key (and has no
choices attribute), get_field does not return a WritableField: it raises
NameError, because the fallback is written as the unqualified name
WritableField, which the module never binds, and Python evaluates that
default argument even before the mapping lookup, so a mapped class fails the
same way. -/
theorem C2_fallback_raises_name_error :
    get_field exCustomField =
      Except.error "NameError: name WritableField is not defined" ∧
    get_field exFloatField =
      Except.error "NameError: name WritableField is not defined" :=
  ⟨rfl, rfl⟩

/-- Claim C3.  On a plain forms.CharField(max_length=100) whose widget attrs
mark it read-only, the code assembles exactly the claimed keyword arguments
(required, read_only, default, widget, label, help_text, then max_length),
but the final constructor lookup raises NameError instead of constructing a
serializer field with them. -/
theorem C3_attribute_copy_evaluation :
    get_field_kwargs exCharField =
      [("required", KwVal.val (Val.vbool true)),
       ("read_only", KwVal.val (Val.vbool true)),
       ("default", KwVal.val (Val.vstr "x")),
       ("widget", KwVal.wid exWidget),
       ("label", KwVal.val (Val.vstr "Title")),
       ("help_text", KwVal.val (Val.vstr "h")),
       ("max_length", KwVal.val (Val.vint 100))] ∧
    get_field exCharField =
      Except.error "NameError: name WritableField is not defined" :=
  ⟨rfl, rfl⟩

/-- Claim C4.  perform_validation folds every entry of the bound form's
errors into the accumulated _errors dictionary with setdefault/extend
semantics: under each key of the form's errors the form's list is appended
after whatever was already accumulated there, every other key is untouched,
and only then is validation delegated to the superclass, which receives the
already-updated state. -/
theorem C4_perform_validation_forwards_errors
    (superPV : MixinState → Val → MixinState × Val)
    (s : MixinState) (bf : FormObj) (attrs : Val)
    (hb : s.bound_form = some bf)
    (hnd : (bf.errors.map Prod.fst).Nodup) :
    perform_validation superPV s attrs =
      Except.ok (superPV { s with err := mergeErrors bf.errors s.err } attrs) ∧
    (∀ k l, (k, l) ∈ bf.errors →
      pyGet (mergeErrors bf.errors s.err) k =
        some ((pyGet s.err k).getD [] ++ l)) ∧
    (∀ k, k ∉ bf.errors.map Prod.fst →
      pyGet (mergeErrors bf.errors s.err) k = pyGet s.err k) := by
  refine ⟨?_, ?_, ?_⟩
  · unfold perform_validation
    rw [hb]
  · intro k l hm
    exact pyGet_mergeErrors_mem bf.errors s.err k l hnd hm
  · intro k hk
    exact pyGet_mergeErrors_not_mem bf.errors s.err k hk

/-- Witness for C4: a bound form with errors under title and age, a state
that already holds an older error under title; the old entry is preserved
and extended. -/
theorem C4_perform_validation_forwards_errors_witness :
    perform_validation wSuperPV wState Val.vnone =
      Except.ok (wSuperPV
        { wState with err := mergeErrors wBoundForm.errors wState.err }
        Val.vnone) ∧
    (∀ k l, (k, l) ∈ wBoundForm.errors →
      pyGet (mergeErrors wBoundForm.errors wState.err) k =
        some ((pyGet wState.err k).getD [] ++ l)) ∧
    (∀ k, k ∉ wBoundForm.errors.map Prod.fst →
      pyGet (mergeErrors wBoundForm.errors wState.err) k =
        pyGet wState.err k) :=
  C4_perform_validation_forwards_errors wSuperPV wState wBoundForm Val.vnone
    rfl (by decide)

/-- Claim C5.  On a form holding any non-choices field (here a plain
CharField) get_default_fields does not return a field dictionary at all: the
NameError from get_field propagates.  On an all-choices form the claimed
structure is visible: the superclass's default entry under title is replaced
in place by the form-derived field and the new key kind is appended. -/
theorem C5_get_default_fields_evaluation :
    get_default_fields exFormClass exState0 [("title", exDefaultField)] =
      Except.error "NameError: name WritableField is not defined" ∧
    get_default_fields exChoicesFormClass exState0 [("title", exDefaultField)] =
      Except.ok
        [("title", ⟨SerializerFieldClass.ChoiceField,
          [("required", KwVal.val (Val.vbool true)),
           ("read_only", KwVal.val (Val.vbool false)),
           ("default", KwVal.val Val.vnone),
           ("widget", KwVal.wid ⟨[]⟩),
           ("label", KwVal.val Val.vnone),
           ("help_text", KwVal.val Val.vnone),
           ("choices", KwVal.val (Val.vstr "colour_choices"))]⟩),
         ("kind", ⟨SerializerFieldClass.ChoiceField,
          [("required", KwVal.val (Val.vbool false)),
           ("read_only", KwVal.val (Val.vbool false)),
           ("default", KwVal.val Val.vnone),
           ("widget", KwVal.wid ⟨[]⟩),
           ("label", KwVal.val Val.vnone),
           ("help_text", KwVal.val Val.vnone),
           ("choices", KwVal.val (Val.vstr "kind_choices"))]⟩)] :=
  ⟨rfl, rfl⟩

/-- Claim C6.  from_native builds the bound form by calling the form class
on data and files with the instance keyword defaulted to the serializer's
current object (None when the attribute is absent), stores it in bound_form,
and returns the superclass's from_native applied to the same data and files
on the updated state. -/
theorem C6_from_native_binds_form (fc : FormClass)
    (superFN : MixinState → Val → Val → MixinState × Val)
    (s : MixinState) (data files : Val) :
    from_native fc superFN s data files =
      superFN
        { s with bound_form := some (fc (some data) (some files) ((s.object).getD Val.vnone)) }
        data files :=
  rfl

/-- Claim C7.  restore_object returns the bound form's cleaned_data
unchanged and its result does not depend on either the attrs argument or the
instance argument. -/
theorem C7_restore_object_returns_cleaned_data
    (s : MixinState) (bf : FormObj) (a1 i1 a2 i2 : Val)
    (hb : s.bound_form = some bf) :
    restore_object s a1 i1 = Except.ok bf.cleaned_data ∧
    restore_object s a1 i1 = restore_object s a2 i2 := by
  constructor
  · unfold restore_object
    rw [hb]
  · unfold restore_object
    rw [hb]

/-- Witness for C7: on the concrete bound state, restore_object yields the
form's cleaned_data for arbitrary distinct argument pairs. -/
theorem C7_restore_object_returns_cleaned_data_witness :
    restore_object wState Val.vnone (Val.vint 7) =
      Except.ok wBoundForm.cleaned_data ∧
    restore_object wState Val.vnone (Val.vint 7) =
      restore_object wState (Val.vstr "a") Val.vnone :=
  C7_restore_object_returns_cleaned_data wState wBoundForm Val.vnone
    (Val.vint 7) (Val.vstr "a") Val.vnone rfl

/-- Claim C8.  For every field with a choices attribute, get_field returns a
ChoiceField built from the six common keyword arguments plus choices, and
nothing else: no per-class extra attribute (no max_length even for a
CharField-classed field) and no consultation of the mapping table. -/
theorem C8_choices_short_circuit (f : FormField) (c : Val)
    (h : f.choices = some c) :
    get_field f =
      Except.ok ⟨SerializerFieldClass.ChoiceField,
        [("required", KwVal.val (Val.vbool f.required)),
         ("read_only",
           KwVal.val ((pyGet f.widget.attrs "read_only").getD (Val.vbool false))),
         ("default", KwVal.val f.initial),
         ("widget", KwVal.wid f.widget),
         ("label", KwVal.val f.label),
         ("help_text", KwVal.val f.help_text),
         ("choices", KwVal.val c)]⟩ := by
  unfold get_field
  rw [h]
  rfl

/-- Witness for C8: a choices-bearing field whose exact class is CharField
and which carries max_length=50 still yields a ChoiceField whose kwargs hold
no max_length entry. -/
theorem C8_choices_short_circuit_witness :
    get_field exChoicesCharField =
      Except.ok ⟨SerializerFieldClass.ChoiceField,
        [("required", KwVal.val (Val.vbool true)),
         ("read_only", KwVal.val (Val.vbool false)),
         ("default", KwVal.val Val.vnone),
         ("widget", KwVal.wid ⟨[]⟩),
         ("label", KwVal.val Val.vnone),
         ("help_text", KwVal.val Val.vnone),
         ("choices", KwVal.val (Val.vstr "colour_choices"))]⟩ :=
  C8_choices_short_circuit exChoicesCharField (Val.vstr "colour_choices") rfl

/-- Claim C9.  Passing a form_field_mapping keyword to the constructor
updates the single class-level dictionary in place: afterwards the mapping
any instance observes (instance_form_field_mapping is a function of the
shared class state alone, because __init__ mutates and never rebinds) is the
old class mapping updated with every passed entry, added or overridden,
while unmentioned keys keep their old value. -/
theorem C9_init_mutates_shared_mapping (w : World)
    (m : List (FormFieldClass × SerializerFieldClass))
    (hnd : (m.map Prod.fst).Nodup) :
    instance_form_field_mapping (mixin_init w (some m)) =
      pyUpdate w.classMapping m ∧
    (∀ k v, (k, v) ∈ m →
      pyGet (instance_form_field_mapping (mixin_init w (some m))) k = some v) ∧
    (∀ k, k ∉ m.map Prod.fst →
      pyGet (instance_form_field_mapping (mixin_init w (some m))) k =
        pyGet w.classMapping k) := by
  refine ⟨rfl, ?_, ?_⟩
  · intro k v hm
    exact pyGet_pyUpdate_mem m w.classMapping k v hnd hm
  · intro k hk
    exact pyGet_pyUpdate_not_mem m w.classMapping k hk

/-- A world whose class mapping is the mixin's table. -/
def wWorld : World := ⟨form_field_mapping⟩

/-- A constructor keyword adding a new key and overriding an existing one. -/
def wExtra : List (FormFieldClass × SerializerFieldClass) :=
  [(FormFieldClass.Other "JSONField", SerializerFieldClass.CharField),
   (FormFieldClass.IntegerField, SerializerFieldClass.FloatField)]

/-- Witness for C9: after one construction with wExtra, lookups through the
shared class state see the added and the overridden entry. -/
theorem C9_init_mutates_shared_mapping_witness :
    instance_form_field_mapping (mixin_init wWorld (some wExtra)) =
      pyUpdate wWorld.classMapping wExtra ∧
    (∀ k v, (k, v) ∈ wExtra →
      pyGet (instance_form_field_mapping (mixin_init wWorld (some wExtra))) k =
        some v) ∧
    (∀ k, k ∉ wExtra.map Prod.fst →
      pyGet (instance_form_field_mapping (mixin_init wWorld (some wExtra))) k =
        pyGet wWorld.classMapping k) :=
  C9_init_mutates_shared_mapping wWorld wExtra (by decide)

/-- Claim C10.  On any serializer state whose bound_form attribute was never
assigned (which from_native alone does), perform_validation and
restore_object both raise AttributeError instead of returning a result. -/
theorem C10_bound_form_precondition
    (superPV : MixinState → Val → MixinState × Val)
    (s : MixinState) (attrs a i : Val)
    (hb : s.bound_form = none) :
    perform_validation superPV s attrs =
      Except.error
        "AttributeError: FormSerializer object has no attribute bound_form" ∧
    restore_object s a i =
      Except.error
        "AttributeError: FormSerializer object has no attribute bound_form" := by
  constructor
  · unfold perform_validation
    rw [hb]
  · unfold restore_object
    rw [hb]

/-- Witness for C10: on the freshly constructed state both lifecycle methods
fail with AttributeError. -/
theorem C10_bound_form_precondition_witness :
    perform_validation wSuperPV exState0 Val.vnone =
      Except.error
        "AttributeError: FormSerializer object has no attribute bound_form" ∧
    restore_object exState0 Val.vnone Val.vnone =
      Except.error
        "AttributeError: FormSerializer object has no attribute bound_form" :=
  C10_bound_form_precondition wSuperPV exState0 Val.vnone Val.vnone Val.vnone rfl
